import Mathlib

/-!
# Verification of the qumulus Store (zone persistence actor)

Shallow embedding of `src/store/mod.rs`: the `StoreHandle` public surface,
the `StoreCall` message protocol, the `StoreError` taxonomy, and — modelled
from the specification where the corresponding repository modules are not in
scope (the actor loop, `zone::ZoneData`, and the bincode wire format) — the
write-admission state machine and the serialization round-trip.

Machine integers are modelled as `Nat` with explicit bounds (a byte is
`Fin 256`, a `u64` is a `Nat` below `2 ^ 64`); fallible operations return
`Option`/`Except`, with `none` standing for a Rust panic where the source
uses `.unwrap()`.
-/

namespace Qumulus

/-- A single byte, as stored in a `Vec<u8>`. -/
abbrev Byte := Fin 256

/-- `width` little-endian base-256 digits of `n` (the low `8 * width` bits). -/
def natToLEBytes : Nat → Nat → List Byte
  | 0, _ => []
  | w + 1, n => ⟨n % 256, Nat.mod_lt _ (by omega)⟩ :: natToLEBytes w (n / 256)

/-- Read a little-endian base-256 digit list back into a `Nat`. -/
def leBytesToNat : List Byte → Nat
  | [] => 0
  | b :: bs => b.val + 256 * leBytesToNat bs

theorem natToLEBytes_length (w n : Nat) : (natToLEBytes w n).length = w := by
  induction w generalizing n with
  | zero => rfl
  | succ w ih => simp [natToLEBytes, ih]

theorem leBytesToNat_natToLEBytes (w n : Nat) :
    leBytesToNat (natToLEBytes w n) = n % 256 ^ w := by
  induction w generalizing n with
  | zero => simp [natToLEBytes, leBytesToNat, Nat.mod_one]
  | succ w ih =>
    have hpow : (256 : Nat) ^ (w + 1) = 256 * 256 ^ w := by ring
    have h1 : n % (256 * 256 ^ w) % 256 = n % 256 :=
      Nat.mod_mod_of_dvd n ⟨256 ^ w, rfl⟩
    have h2 : n % (256 * 256 ^ w) / 256 = n / 256 % 256 ^ w :=
      Nat.mod_mul_right_div_self n 256 (256 ^ w)
    have h3 := Nat.div_add_mod (n % (256 * 256 ^ w)) 256
    rw [natToLEBytes, leBytesToNat, ih, hpow]
    dsimp only
    omega

theorem leBytesToNat_lt (bs : List Byte) : leBytesToNat bs < 256 ^ bs.length := by
  induction bs with
  | nil => simp [leBytesToNat]
  | cons b bs ih =>
    have hb : b.val < 256 := b.isLt
    simp only [leBytesToNat, List.length_cons, pow_succ]
    calc b.val + 256 * leBytesToNat bs
        < 256 + 256 * leBytesToNat bs := by omega
      _ ≤ 256 * 256 ^ bs.length := by
          have := ih
          omega
      _ = 256 ^ bs.length * 256 := by ring

/-- Modelled from the spec: the wire format encodes a `u64` as eight
little-endian bytes (bincode's fixed-width integer encoding). -/
def encodeU64 (n : Nat) : List Byte :=
  natToLEBytes 8 n

/-- Modelled from the spec: decode an eight-byte little-endian `u64` from the
front of a byte string, returning the value and the unconsumed tail. -/
def decodeU64 (l : List Byte) : Option (Nat × List Byte) :=
  if 8 ≤ l.length then some (leBytesToNat (l.take 8), l.drop 8) else none

theorem encodeU64_length (n : Nat) : (encodeU64 n).length = 8 :=
  natToLEBytes_length 8 n

theorem decodeU64_encodeU64 (n : Nat) (hn : n < 2 ^ 64) (rest : List Byte) :
    decodeU64 (encodeU64 n ++ rest) = some (n, rest) := by
  have hlen : (encodeU64 n).length = 8 := encodeU64_length n
  have htake : (encodeU64 n ++ rest).take 8 = encodeU64 n := List.take_left' hlen
  have hdrop : (encodeU64 n ++ rest).drop 8 = rest := List.drop_left' hlen
  have hlen' : 8 ≤ (encodeU64 n ++ rest).length := by
    rw [List.length_append, hlen]; omega
  have hval : leBytesToNat (encodeU64 n) = n := by
    have h64 : (256 : Nat) ^ 8 = 2 ^ 64 := by norm_num
    rw [encodeU64, leBytesToNat_natToLEBytes, h64, Nat.mod_eq_of_lt hn]
  rw [decodeU64, if_pos hlen', htake, hdrop, hval]

/-- Modelled from the spec: `zone::ZoneData`, the serializable Snapshot a
Zone owns — opaque to the Store beyond its serialization contract. Modelled
as a version counter (`u64`) together with an opaque payload (`Vec<u8>`). -/
structure ZoneData where
  version : Nat
  payload : List Byte
deriving DecidableEq

/-- The representation invariants the Rust types carry for free: a `u64`
field is below `2 ^ 64` and a `Vec` length is below `2 ^ 64`. -/
def ZoneData.WellFormed (d : ZoneData) : Prop :=
  d.version < 2 ^ 64 ∧ d.payload.length < 2 ^ 64

instance (d : ZoneData) : Decidable d.WellFormed := by
  unfold ZoneData.WellFormed
  infer_instance

/-- Modelled from the spec: the deterministic binary wire format for a
Snapshot — each `u64` field fixed-width little-endian, the payload as a
length-prefixed byte sequence (bincode's `Vec<u8>` layout). -/
def encodeZoneData (d : ZoneData) : List Byte :=
  encodeU64 d.version ++ (encodeU64 d.payload.length ++ d.payload)

/-- Modelled from the spec: decode a Snapshot from a byte string, failing on
truncated input or trailing garbage. -/
def decodeZoneData (l : List Byte) : Option ZoneData :=
  match decodeU64 l with
  | none => none
  | some (v, r1) =>
    match decodeU64 r1 with
    | none => none
    | some (len, r2) => if r2.length = len then some ⟨v, r2⟩ else none

/-- `path::Path`: an opaque, comparable, cloneable storage key (one per
Zone). Modelled as a string. -/
abbrev Path := String

/-- `zone::ZoneHandle`: a lightweight cloneable reference used only to
deliver asynchronous notifications back to the owning Zone. Modelled as an
opaque identifier. -/
abbrev ZoneHandle := Nat

/-- Reply channels (`Sender<Path>`, `Sender<Option<ZoneData>>`) carried
inside messages, modelled as opaque channel identifiers. -/
abbrev ChannelId := Nat

/-- `StoreCall` (src/store/mod.rs:33-39): the closed set of requests a Zone
or test harness may send to the Store. -/
inductive StoreCall
  | List (tx : ChannelId)
  | Load (zone : ZoneHandle) (path : Path)
  | LoadData (path : Path) (tx : ChannelId)
  | RequestWrite (zone : ZoneHandle)
  | Write (zone : ZoneHandle) (path : Path) (data : List Byte)
deriving DecidableEq

/-- The shared multi-producer single-consumer queue behind a `StoreHandle`'s
`tx: Sender<StoreCall>`: the receiving end is alive or dropped, and messages
accepted so far are held in order. -/
structure MpscState where
  receiverAlive : Bool
  queue : List StoreCall
deriving DecidableEq

/-- `Sender::send` on the store queue: appends the message when the
receiving end is alive, and returns an error (here `none`) when the Store's
receiver has been dropped. The source always calls `.unwrap()` on this
result, so `none` models a caller panic. -/
def Sender.send (st : MpscState) (c : StoreCall) : Option MpscState :=
  if st.receiverAlive then some { st with queue := st.queue ++ [c] } else none

/-- `Result::unwrap` / `Option::unwrap` as used by the handle: an `Err`
becomes a panic (`none`), never an error value. -/
def unwrapExcept {α : Type} : Except String α → Option α
  | Except.ok a => some a
  | Except.error _ => none

/-- `bincode::SizeLimit`: `Infinite` places no bound on the encoded size;
`Bounded n` rejects encodings longer than `n` bytes. -/
inductive SizeLimit
  | Infinite
  | Bounded (n : Nat)

/-- Modelled from the spec: `bincode::serialize(&data, limit)` — the
deterministic wire-format encoding of a Snapshot, which can fail only by
exceeding a bounded size limit. -/
def bincode.serialize (d : ZoneData) (limit : SizeLimit) : Except String (List Byte) :=
  match limit with
  | SizeLimit.Infinite => Except.ok (encodeZoneData d)
  | SizeLimit.Bounded n =>
    if (encodeZoneData d).length ≤ n then Except.ok (encodeZoneData d)
    else Except.error "SizeLimitExceeded"

namespace StoreHandle

/-- `StoreHandle::each_zone` (src/store/mod.rs:63-71): create a reply
channel, send a single `List` request carrying it, then fold the callback
over the keys delivered on the reply channel, in delivery order, returning
when the channel closes. `delivered` is the finite stream of keys the actor
sends before closing; `none` models the panic when `send` fails. -/
def each_zone {σ : Type} (st : MpscState) (tx : ChannelId)
    (delivered : List Path) (f : σ → Path → σ) (init : σ) : Option (MpscState × σ) :=
  match Sender.send st (StoreCall.List tx) with
  | none => none
  | some st' => some (st', delivered.foldl f init)

/-- `StoreHandle::load` (src/store/mod.rs:74-76): fire-and-forget enqueue of
a `Load` request. -/
def load (st : MpscState) (zone : ZoneHandle) (path : Path) : Option MpscState :=
  Sender.send st (StoreCall.Load zone path)

/-- `StoreHandle::load_data` (src/store/mod.rs:79-85): create a reply
channel, enqueue a `LoadData` request, then block on `rx.recv().unwrap()`.
`reply` is what the reply channel yields: `none` when it is closed before
any reply arrives (making `recv()` return `Err`, so `.unwrap()` panics),
`some r` when the actor answered `r`. -/
def load_data (st : MpscState) (path : Path) (tx : ChannelId)
    (reply : Option (Option ZoneData)) : Option (Option ZoneData) :=
  match Sender.send st (StoreCall.LoadData path tx) with
  | none => none
  | some _ =>
    match reply with
    | none => none
    | some r => some r

/-- `StoreHandle::request_write` (src/store/mod.rs:88-90): fire-and-forget
enqueue of a `RequestWrite` request. -/
def request_write (st : MpscState) (zone : ZoneHandle) : Option MpscState :=
  Sender.send st (StoreCall.RequestWrite zone)

/-- `StoreHandle::write` (src/store/mod.rs:93-99): serialize the snapshot on
the caller's side with `bincode::serialize(&data, bincode::Infinite)`,
unwrap, and enqueue a single `Write` request carrying the zone reference,
the key and the encoded bytes. -/
def write (st : MpscState) (zone : ZoneHandle) (path : Path) (data : ZoneData) :
    Option MpscState :=
  match unwrapExcept (bincode.serialize data SizeLimit.Infinite) with
  | none => none
  | some serialized => Sender.send st (StoreCall.Write zone path serialized)

end StoreHandle

/-- Modelled from the spec: the backend capability's `read(key)` outcome —
bytes, `NotFound`, or a read failure. -/
inductive ReadResult
  | Found (bytes : List Byte)
  | NotFound
  | Failed (msg : String)
deriving DecidableEq

/-- Modelled from the spec: the pluggable backend capability — `list()`
enumerates the known keys, `read(key)` produces bytes or absence. Static
here because the claims under proof only read it. -/
structure Backend where
  keys : List Path
  read : Path → ReadResult

/-- Modelled from the spec: the actor-owned write-admission state — the busy
flag (true while a backend write slot is reserved or in use) and the ordered
pending-write queue of Zone references awaiting a grant. -/
structure Store where
  busy : Bool
  pending : List ZoneHandle
deriving DecidableEq

/-- Modelled from the spec: the asynchronous notifications the Store
delivers through a `ZoneHandle` or a reply channel. -/
inductive Notification
  | WritePermitted (zone : ZoneHandle)
  | WriteResult (zone : ZoneHandle) (ok : Bool)
  | Loaded (zone : ZoneHandle) (data : ZoneData)
  | LoadFailed (zone : ZoneHandle)
deriving DecidableEq

namespace Store

/-- Modelled from the spec: the actor's `RequestWrite` handler — when the
busy flag is false, immediately notify the requester that it may write and
set busy; when busy, append the Zone reference to the pending-write queue
unless it is already present. -/
def handleRequestWrite (s : Store) (z : ZoneHandle) : Store × List Notification :=
  if s.busy then
    ({ s with pending := if z ∈ s.pending then s.pending else s.pending ++ [z] }, [])
  else
    ({ s with busy := true }, [Notification.WritePermitted z])

/-- Modelled from the spec: the actor's `Write` handler — perform the
backend write (its success/failure arrives as the oracle input `ok`);
regardless of outcome set busy to false, then, when the pending-write queue
is non-empty, pop its head, notify it that it may write, and set busy to
true again; report the outcome to the writing Zone. -/
def handleWrite (s : Store) (z : ZoneHandle) (_p : Path) (_bytes : List Byte)
    (ok : Bool) : Store × List Notification :=
  match s.pending with
  | [] => ({ busy := false, pending := [] }, [Notification.WriteResult z ok])
  | n :: rest =>
    ({ busy := true, pending := rest },
     [Notification.WriteResult z ok, Notification.WritePermitted n])

/-- Modelled from the spec: the actor's `LoadData` handler — read the key's
bytes from the backend and reply with the decoded Snapshot, or with absence
when the key does not exist (a decode failure is also answered as absence,
the behaviour the spec leaves as an open question). -/
def handleLoadData (backend : Backend) (p : Path) : Option ZoneData :=
  match backend.read p with
  | ReadResult.Found bytes => decodeZoneData bytes
  | ReadResult.NotFound => none
  | ReadResult.Failed _ => none

/-- Modelled from the spec: the actor's `List` handler — stream every key
the backend enumerates to the reply channel, in order, then close it. The
returned list is the full delivered stream. -/
def handleList (backend : Backend) : List Path :=
  backend.keys

/-- Process a sequence of `Write` requests (zone, key, bytes, backend
outcome) in arrival order, accumulating the emitted notifications. -/
def drainWrites (s : Store) :
    List (ZoneHandle × Path × List Byte × Bool) → Store × List Notification
  | [] => (s, [])
  | w :: ws =>
    let step := handleWrite s w.1 w.2.1 w.2.2.1 w.2.2.2
    let rest := drainWrites step.1 ws
    (rest.1, step.2 ++ rest.2)

end Store

/-- The write-permission grants contained in a notification stream, in
emission order. -/
def grantsOf (ns : List Notification) : List ZoneHandle :=
  ns.filterMap fun n =>
    match n with
    | Notification.WritePermitted z => some z
    | _ => none

/-- `StoreError` (src/store/mod.rs:42-47): the three error kinds, each
wrapping a boxed underlying cause. The cause is modelled by what the Store
observes of it: its `description()` string. -/
structure BoxedError where
  description : String
deriving DecidableEq

/-- `StoreError` (src/store/mod.rs:42-47). -/
inductive StoreError
  | ReadError (err : BoxedError)
  | OtherError (err : BoxedError)
  | WriteError (err : BoxedError)
deriving DecidableEq

namespace StoreError

/-- `Error::description` for `StoreError` (src/store/mod.rs:123-129):
delegates to the wrapped cause's description. -/
def description : StoreError → String
  | ReadError err => err.description
  | OtherError err => err.description
  | WriteError err => err.description

/-- `Error::cause` for `StoreError` (src/store/mod.rs:131-137): always
`Some` of the wrapped cause. -/
def cause : StoreError → Option BoxedError
  | ReadError err => some err
  | OtherError err => some err
  | WriteError err => some err

/-- `fmt::Display` for `StoreError` (src/store/mod.rs:112-120): a
kind-identifying tag followed by the cause's description. -/
def displayFmt : StoreError → String
  | ReadError err => "Read error: " ++ err.description
  | OtherError err => "Other error: " ++ err.description
  | WriteError err => "Write error: " ++ err.description

/-- The kind-identifying tag the `Display` rendering begins with. -/
def kindTag : StoreError → String
  | ReadError _ => "Read error: "
  | OtherError _ => "Other error: "
  | WriteError _ => "Write error: "

end StoreError

theorem grantsOf_append (a b : List Notification) :
    grantsOf (a ++ b) = grantsOf a ++ grantsOf b :=
  List.filterMap_append a b _

theorem grantsOf_nil : grantsOf [] = [] := rfl

theorem grantsOf_cons_permitted (z : ZoneHandle) (ns : List Notification) :
    grantsOf (Notification.WritePermitted z :: ns) = z :: grantsOf ns := rfl

theorem grantsOf_cons_result (z : ZoneHandle) (ok : Bool) (ns : List Notification) :
    grantsOf (Notification.WriteResult z ok :: ns) = grantsOf ns := rfl

/-- Draining write completions pops grants off the pending queue strictly in
queue order: after `k` completed writes the grants emitted are exactly the
first `k` queued Zone references. -/
theorem grantsOf_drainWrites (s : Store)
    (ws : List (ZoneHandle × Path × List Byte × Bool)) :
    grantsOf (Store.drainWrites s ws).2 = s.pending.take ws.length := by
  induction ws generalizing s with
  | nil => simp [Store.drainWrites, grantsOf]
  | cons w ws ih =>
    cases s with
    | mk busy pending =>
      cases pending with
      | nil =>
        simp [Store.drainWrites, Store.handleWrite, grantsOf_append,
          grantsOf_cons_result, grantsOf_nil, ih ⟨false, []⟩]
      | cons n rest =>
        simp [Store.drainWrites, Store.handleWrite, grantsOf_append,
          grantsOf_cons_result, grantsOf_cons_permitted, grantsOf_nil, ih ⟨true, rest⟩]

theorem foldl_collect (l acc : List Path) :
    l.foldl (fun a p => a ++ [p]) acc = acc ++ l := by
  induction l generalizing acc with
  | nil => simp
  | cons x xs ih => simp [List.foldl_cons, ih]

/-- C1. Write mutual exclusion: from an idle Store, the first RequestWrite
is granted immediately (and sets the busy flag), the second is not granted
but queued; over both requests exactly one immediate grant is issued, and
the queued Zone receives its grant only when the first Zone's Write
completes. -/
theorem c1_write_mutual_exclusion (s : Store) (a b : ZoneHandle) (p : Path)
    (bytes : List Byte) (ok : Bool)
    (hidle : s.busy = false) (hempty : s.pending = []) (hab : a ≠ b) :
    (s.handleRequestWrite a).2 = [Notification.WritePermitted a]
    ∧ (s.handleRequestWrite a).1.busy = true
    ∧ ((s.handleRequestWrite a).1.handleRequestWrite b).2 = []
    ∧ ((s.handleRequestWrite a).1.handleRequestWrite b).1.pending = [b]
    ∧ grantsOf ((s.handleRequestWrite a).2
        ++ ((s.handleRequestWrite a).1.handleRequestWrite b).2) = [a]
    ∧ Notification.WritePermitted b ∉ (s.handleRequestWrite a).2
        ++ ((s.handleRequestWrite a).1.handleRequestWrite b).2
    ∧ grantsOf ((((s.handleRequestWrite a).1.handleRequestWrite b).1.handleWrite
        a p bytes ok).2) = [b] := by
  cases s with
  | mk busy pending =>
    simp only [Store.busy] at hidle
    simp only [Store.pending] at hempty
    subst hidle hempty
    refine ⟨?_, ?_, ?_, ?_, ?_, ?_, ?_⟩ <;>
      simp [Store.handleRequestWrite, Store.handleWrite, grantsOf_append,
        grantsOf_cons_permitted, grantsOf_nil, grantsOf_cons_result,
        Ne.symm hab]

/-- Witness for C1: the idle Store, two distinct Zones, a concrete Write. -/
theorem c1_write_mutual_exclusion_witness :
    (Store.handleRequestWrite ⟨false, []⟩ 0).2 = [Notification.WritePermitted 0]
    ∧ ((Store.handleRequestWrite ⟨false, []⟩ 0).1.handleRequestWrite 1).1.pending = [1]
    ∧ grantsOf ((((Store.handleRequestWrite ⟨false, []⟩ 0).1.handleRequestWrite 1).1.handleWrite
        0 "k" [] true).2) = [1] := by
  have h := c1_write_mutual_exclusion ⟨false, []⟩ 0 1 "k" [] true rfl rfl (by decide)
  exact ⟨h.1, h.2.2.2.1, h.2.2.2.2.2.2⟩

/-- C2. FIFO fairness of write grants: while a write is in progress, queueing
`c` and then `d` appends them in arrival order to the pending-write queue,
the queue stays duplicate-free, and any run of subsequent write completions
grants write permission in exactly queue order — so `c` is granted before
`d`. -/
theorem c2_fifo_fairness (s : Store) (c d : ZoneHandle)
    (ws : List (ZoneHandle × Path × List Byte × Bool))
    (hbusy : s.busy = true) (hc : c ∉ s.pending) (hd : d ∉ s.pending)
    (hcd : c ≠ d) (hnd : s.pending.Nodup) :
    ((s.handleRequestWrite c).1.handleRequestWrite d).1.pending = s.pending ++ [c, d]
    ∧ (s.pending ++ [c, d]).Nodup
    ∧ grantsOf (Store.drainWrites ((s.handleRequestWrite c).1.handleRequestWrite d).1 ws).2
        = (s.pending ++ [c, d]).take ws.length := by
  cases s with
  | mk busy pending =>
    simp only [Store.busy] at hbusy
    simp only [Store.pending] at hc hd hnd ⊢
    subst hbusy
    have hstep : ((Store.handleRequestWrite ⟨true, pending⟩ c).1.handleRequestWrite d).1
        = ⟨true, pending ++ [c, d]⟩ := by
      simp [Store.handleRequestWrite, hc, hd, Ne.symm hcd]
    have hnodup : (pending ++ [c, d]).Nodup := by
      simp [List.nodup_append, hnd, List.disjoint_cons_right, hcd, hc, hd]
    refine ⟨by rw [hstep], hnodup, ?_⟩
    rw [hstep]
    exact grantsOf_drainWrites ⟨true, pending ++ [c, d]⟩ ws

/-- Witness for C2: one Zone already queued, then Zones 1 and 2 queue while
the Store is busy, and three write completions drain the queue. -/
theorem c2_fifo_fairness_witness :
    ((Store.handleRequestWrite ⟨true, [7]⟩ 1).1.handleRequestWrite 2).1.pending = [7, 1, 2]
    ∧ grantsOf (Store.drainWrites
        ((Store.handleRequestWrite ⟨true, [7]⟩ 1).1.handleRequestWrite 2).1
        [(9, "a", [], true), (7, "b", [], true), (1, "c", [], false)]).2 = [7, 1, 2] := by
  have h := c2_fifo_fairness ⟨true, [7]⟩ 1 2
    [(9, "a", [], true), (7, "b", [], true), (1, "c", [], false)]
    rfl (by decide) (by decide) (by decide) (by decide)
  exact ⟨h.1, h.2.2⟩

/-- C3. Failure non-starvation: after the Store processes a Write request,
whatever the backend outcome, the resulting state is identical to the
success case — busy is true exactly when the pending queue was non-empty,
the queue loses its head, the head (when present) is the one Zone granted
write permission, and the writing Zone is told the outcome. A failed Write
therefore never prevents the next queued requester from being granted. -/
theorem c3_failure_non_starvation (s : Store) (z : ZoneHandle) (p : Path)
    (bytes : List Byte) (ok : Bool) :
    (s.handleWrite z p bytes ok).1 = (s.handleWrite z p bytes true).1
    ∧ (s.handleWrite z p bytes ok).1.busy = !s.pending.isEmpty
    ∧ (s.handleWrite z p bytes ok).1.pending = s.pending.tail
    ∧ grantsOf (s.handleWrite z p bytes ok).2 = s.pending.take 1
    ∧ Notification.WriteResult z ok ∈ (s.handleWrite z p bytes ok).2 := by
  cases s with
  | mk busy pending =>
    cases pending with
    | nil => simp [Store.handleWrite, grantsOf]
    | cons n rest => simp [Store.handleWrite, grantsOf]

/-- C4. Serialization round-trip: decoding the wire-format encoding of any
well-formed Snapshot returns the Snapshot itself. -/
theorem c4_serialization_round_trip (d : ZoneData) (h : d.WellFormed) :
    decodeZoneData (encodeZoneData d) = some d := by
  obtain ⟨hv, hl⟩ := h
  have h1 := decodeU64_encodeU64 d.version hv (encodeU64 d.payload.length ++ d.payload)
  have h2 := decodeU64_encodeU64 d.payload.length hl d.payload
  simp [encodeZoneData, decodeZoneData, h1, h2]

/-- Witness for C4 at a concrete Snapshot. -/
theorem c4_serialization_round_trip_witness :
    decodeZoneData (encodeZoneData ⟨3, [7, 255]⟩) = some ⟨3, [7, 255]⟩ :=
  c4_serialization_round_trip ⟨3, [7, 255]⟩ (by constructor <;> norm_num)

/-- C5. Caller-side encoding in write: `StoreHandle::write` encodes the
snapshot with the wire format on the caller's side and enqueues exactly one
`Write` message carrying the zone reference, the key, and those encoded
bytes — not the snapshot value itself. -/
theorem c5_caller_side_encoding (st : MpscState) (z : ZoneHandle) (p : Path)
    (d : ZoneData) (h : st.receiverAlive = true) :
    StoreHandle.write st z p d
      = some { st with queue := st.queue ++ [StoreCall.Write z p (encodeZoneData d)] } := by
  simp [StoreHandle.write, bincode.serialize, unwrapExcept, Sender.send, h]

/-- Witness for C5 at a concrete handle state and snapshot. -/
theorem c5_caller_side_encoding_witness :
    StoreHandle.write ⟨true, []⟩ 0 "k" ⟨1, [2]⟩
      = some ⟨true, [StoreCall.Write 0 "k" (encodeZoneData ⟨1, [2]⟩)]⟩ :=
  c5_caller_side_encoding ⟨true, []⟩ 0 "k" ⟨1, [2]⟩ rfl

/-- C6. `load_data` result contract: when the backend holds bytes for the
key that decode successfully, the blocking `load_data` round trip returns
`some` of the decoded Snapshot; when the key was never written (backend says
`NotFound`), it returns `none` — absence, not a failure. -/
theorem c6_load_data_contract (st : MpscState) (backend : Backend) (p q : Path)
    (tx : ChannelId) (bytes : List Byte) (d : ZoneData)
    (halive : st.receiverAlive = true)
    (hp : backend.read p = ReadResult.Found bytes)
    (hdec : decodeZoneData bytes = some d)
    (hq : backend.read q = ReadResult.NotFound) :
    StoreHandle.load_data st p tx (some (Store.handleLoadData backend p)) = some (some d)
    ∧ StoreHandle.load_data st q tx (some (Store.handleLoadData backend q)) = some none := by
  constructor <;>
    simp [StoreHandle.load_data, Sender.send, halive, Store.handleLoadData, hp, hdec, hq]

/-- Witness for C6: a backend holding one encoded Snapshot under key "a"
and nothing under key "b". -/
theorem c6_load_data_contract_witness :
    StoreHandle.load_data ⟨true, []⟩ "a" 0
      (some (Store.handleLoadData
        ⟨["a"], fun x => if x = "a" then ReadResult.Found (encodeZoneData ⟨3, [7]⟩)
          else ReadResult.NotFound⟩ "a")) = some (some ⟨3, [7]⟩)
    ∧ StoreHandle.load_data ⟨true, []⟩ "b" 0
      (some (Store.handleLoadData
        ⟨["a"], fun x => if x = "a" then ReadResult.Found (encodeZoneData ⟨3, [7]⟩)
          else ReadResult.NotFound⟩ "b")) = some none :=
  c6_load_data_contract ⟨true, []⟩
    ⟨["a"], fun x => if x = "a" then ReadResult.Found (encodeZoneData ⟨3, [7]⟩)
      else ReadResult.NotFound⟩
    "a" "b" 0 (encodeZoneData ⟨3, [7]⟩) ⟨3, [7]⟩ rfl (by simp) (by decide) (by simp)

/-- C7. `each_zone` streaming: the handle sends exactly one `List` request
carrying the reply channel, then folds the callback over the keys the actor
streams (every backend key, in enumeration order), returning when the
stream closes; instantiating the callback with a collector shows it is
invoked exactly once per key, in delivery order. -/
theorem c7_each_zone_streaming {σ : Type} (st : MpscState) (tx : ChannelId)
    (backend : Backend) (f : σ → Path → σ) (init : σ)
    (h : st.receiverAlive = true) :
    StoreHandle.each_zone st tx (Store.handleList backend) f init
      = some ({ st with queue := st.queue ++ [StoreCall.List tx] },
              backend.keys.foldl f init)
    ∧ StoreHandle.each_zone st tx (Store.handleList backend)
        (fun acc p => acc ++ [p]) ([] : List Path)
      = some ({ st with queue := st.queue ++ [StoreCall.List tx] }, backend.keys) := by
  constructor <;>
    simp [StoreHandle.each_zone, Sender.send, h, Store.handleList, foldl_collect]

/-- Witness for C7: a two-key backend with a counting callback. -/
theorem c7_each_zone_streaming_witness :
    StoreHandle.each_zone ⟨true, []⟩ 5
        (Store.handleList ⟨["a", "b"], fun _ => ReadResult.NotFound⟩)
        (fun n _ => n + 1) (0 : Nat)
      = some (⟨true, [StoreCall.List 5]⟩, 2)
    ∧ StoreHandle.each_zone ⟨true, []⟩ 5
        (Store.handleList ⟨["a", "b"], fun _ => ReadResult.NotFound⟩)
        (fun acc p => acc ++ [p]) ([] : List Path)
      = some (⟨true, [StoreCall.List 5]⟩, ["a", "b"]) :=
  c7_each_zone_streaming ⟨true, []⟩ 5 ⟨["a", "b"], fun _ => ReadResult.NotFound⟩
    (fun n _ => n + 1) 0 rfl

/-- C8. Error taxonomy wrapping: every `StoreError` is one of exactly three
kinds, each wrapping a cause; `cause` is always `Some` of the wrapped cause,
`description` equals the cause's description, and the `Display` rendering is
a kind-identifying tag ("Read error: ", "Other error: " or "Write error: ")
followed by the cause's description. -/
theorem c8_error_taxonomy (e : StoreError) :
    ∃ c : BoxedError,
      (e = StoreError.ReadError c ∨ e = StoreError.OtherError c ∨ e = StoreError.WriteError c)
      ∧ e.cause = some c
      ∧ e.description = c.description
      ∧ e.displayFmt = e.kindTag ++ c.description
      ∧ (e.kindTag = "Read error: " ∨ e.kindTag = "Other error: "
          ∨ e.kindTag = "Write error: ") := by
  cases e with
  | ReadError err => exact ⟨err, Or.inl rfl, rfl, rfl, rfl, Or.inl rfl⟩
  | OtherError err => exact ⟨err, Or.inr (Or.inl rfl), rfl, rfl, rfl, Or.inr (Or.inl rfl)⟩
  | WriteError err => exact ⟨err, Or.inr (Or.inr rfl), rfl, rfl, rfl, Or.inr (Or.inr rfl)⟩

/-- C9. Panic on disconnected Store: with the Store's receiving end dropped,
every public `StoreHandle` operation panics (models as `none`) instead of
returning an error; and even with a live queue, `load_data` panics when the
reply channel closes before any reply arrives. -/
theorem c9_panic_on_disconnect {σ : Type} (st st2 : MpscState) (tx : ChannelId)
    (delivered : List Path) (f : σ → Path → σ) (init : σ) (z : ZoneHandle)
    (p : Path) (d : ZoneData) (reply : Option (Option ZoneData))
    (hdead : st.receiverAlive = false) (halive : st2.receiverAlive = true) :
    StoreHandle.each_zone st tx delivered f init = none
    ∧ StoreHandle.load st z p = none
    ∧ StoreHandle.load_data st p tx reply = none
    ∧ StoreHandle.request_write st z = none
    ∧ StoreHandle.write st z p d = none
    ∧ StoreHandle.load_data st2 p tx none = none := by
  refine ⟨?_, ?_, ?_, ?_, ?_, ?_⟩ <;>
    simp [StoreHandle.each_zone, StoreHandle.load, StoreHandle.load_data,
      StoreHandle.request_write, StoreHandle.write, Sender.send, hdead, halive,
      unwrapExcept, bincode.serialize]

/-- Witness for C9: a dropped-receiver queue state and a live one. -/
theorem c9_panic_on_disconnect_witness :
    StoreHandle.each_zone ⟨false, []⟩ 0 ["a"] (fun n _ => n + 1) (0 : Nat) = none
    ∧ StoreHandle.load ⟨false, []⟩ 3 "k" = none
    ∧ StoreHandle.load_data ⟨false, []⟩ "k" 0 (some none) = none
    ∧ StoreHandle.request_write ⟨false, []⟩ 3 = none
    ∧ StoreHandle.write ⟨false, []⟩ 3 "k" ⟨1, []⟩ = none
    ∧ StoreHandle.load_data ⟨true, []⟩ "k" 0 none = none :=
  c9_panic_on_disconnect ⟨false, []⟩ ⟨true, []⟩ 0 ["a"] (fun n _ => n + 1) 0 3 "k"
    ⟨1, []⟩ (some none) rfl rfl

/-- C10. Panic on encoding failure: serializing with `bincode::Infinite`
never fails (no snapshot is rejected for size), a serialization `Err` would
be unwrapped into a panic rather than any error value, and consequently
`StoreHandle::write` reduces to sending the encoded bytes — its only
remaining failure mode is the queue send. -/
theorem c10_write_unwraps_serialization (st : MpscState) (z : ZoneHandle)
    (p : Path) (d : ZoneData) (msg : String) :
    bincode.serialize d SizeLimit.Infinite = Except.ok (encodeZoneData d)
    ∧ unwrapExcept (Except.error msg : Except String (List Byte)) = none
    ∧ StoreHandle.write st z p d = Sender.send st (StoreCall.Write z p (encodeZoneData d)) := by
  refine ⟨rfl, rfl, ?_⟩
  simp [StoreHandle.write, bincode.serialize, unwrapExcept]

end Qumulus
